import Mathlib

/-!
Shallow embedding of the Result_bot repository (src/scraper.py, src/bot.py,
src/config.py) for checking its natural-language specification.

The scraper logs in to a university portal and parses the authenticated HTML
page into a Python dict.  The embedding models:
  * HTML pages as a `Document` (tables of rows with th/td cell texts plus the
    flattened text content, as BeautifulSoup exposes them);
  * Python dicts as insertion-ordered association lists of `PyVal`s;
  * the HTTP world (the two responses and possible exceptions at each site)
    as an explicit `World` record, so that the exception-handling paths of
    `login_and_get_results` and `_parse_results` are ordinary branches;
  * the mutable `requests.Session` object by an allocation id plus a cookie
    jar threaded through the lookup.
-/

/-- Python `needle in hay` at a given position: `needle` is a prefix of `hay`
(`str.startswith`). -/
def startsWithChars : List Char → List Char → Bool
  | [], _ => true
  | _ :: _, [] => false
  | a :: as, b :: bs => a == b && startsWithChars as bs

/-- Python substring test `needle in hay`, scanning every start position of
`hay` left to right. -/
def containsChars : List Char → List Char → Bool
  | [], needle => startsWithChars needle []
  | h :: hs, needle => startsWithChars needle (h :: hs) || containsChars hs needle

/-- Python `needle in hay` on strings (`str.__contains__`). -/
def pyIn (needle hay : String) : Bool :=
  containsChars hay.data needle.data

/-- Python `str.strip()`: remove leading and trailing whitespace (modelled
over the character list so it evaluates by kernel reduction). -/
def pyStrip (s : String) : String :=
  String.mk (((s.data.dropWhile Char.isWhitespace).reverse.dropWhile
    Char.isWhitespace).reverse)

/-- A course entry as appended at src/scraper.py lines 147-150:
`{'name': course_name, 'grade': grade}`. -/
structure Course where
  name : String
  grade : String
deriving DecidableEq, Repr

/-- A Python value as stored in the scraper's result dicts. -/
inductive PyVal where
  | vBool : Bool → PyVal
  | vStr : String → PyVal
  | vNone : PyVal
  | vCourses : List Course → PyVal
deriving DecidableEq, Repr

/-- A Python dict in insertion order: the `ResultRecord` of the spec is the
dict literal built by src/scraper.py. -/
abbrev ResultRecord := List (String × PyVal)

/-- Python dict key access `r[k]` / `r.get(k)`: `none` means the key is absent
from the dict. -/
def getField (r : ResultRecord) (k : String) : Option PyVal :=
  match r with
  | [] => none
  | (k2, v) :: rest => if k = k2 then some v else getField rest k

/-- `Option String` wrapped as a stored dict value (`None` vs a string). -/
def optStr : Option String → PyVal
  | none => PyVal.vNone
  | some s => PyVal.vStr s

/-- Python truthiness of an `Optional[str]`: falsy iff `None` or empty. -/
def optStrFalsy : Option String → Bool
  | none => true
  | some s => s == ""

/-- A `<tr>` as the scraper sees it: the flattened `row.get_text()`, and the
texts of its `th` and `td` descendants in document order. -/
structure Row where
  text : String
  ths : List String
  tds : List String
deriving DecidableEq, Repr

/-- A `<table>`: its `<tr>` rows in document order. -/
structure Table where
  rows : List Row
deriving DecidableEq, Repr

/-- The parsed page: `soup.find_all('table')` and `soup.get_text()`. -/
structure Document where
  tables : List Table
  textContent : String
deriving DecidableEq, Repr

/-- The GPA label literal of the regex at src/scraper.py line 153. -/
def gpaLabel : String := "المعدل"

/-- The character class `[\d.]` of the GPA regex (digits modelled as ASCII
decimal digits). -/
def isGpaChar (c : Char) : Bool := c.isDigit || c == '.'

/-- Matching `\s*\(\s*([\d.]+)\s*\)` against the text right after the GPA
label; greedy matching is exact here because the character classes are
disjoint.  Returns the captured group. -/
def matchGpaAfterLabel (cs : List Char) : Option String :=
  match cs.dropWhile Char.isWhitespace with
  | '(' :: cs2 =>
    let cs3 := cs2.dropWhile Char.isWhitespace
    match cs3.takeWhile isGpaChar, (cs3.dropWhile isGpaChar).dropWhile Char.isWhitespace with
    | d :: ds, ')' :: _ => some (String.mk (d :: ds))
    | _, _ => none
  | _ => none

/-- One attempt of `re.search` at a fixed start position: the literal label
followed by the parenthesized token. -/
def matchGpaAt (cs : List Char) : Option String :=
  if startsWithChars gpaLabel.data cs then
    matchGpaAfterLabel (cs.drop gpaLabel.data.length)
  else none

/-- `re.search` semantics: try every start position left to right, returning
the first (leftmost) match. -/
def gpaSearchAux : List Char → Option String
  | [] => none
  | c :: cs =>
    match matchGpaAt (c :: cs) with
    | some g => some g
    | none => gpaSearchAux cs

/-- `re.search(r'المعدل\s*\(\s*([\d.]+)\s*\)', text)` returning `group(1)`
(src/scraper.py lines 153-155). -/
def gpaOf (text : String) : Option String :=
  gpaSearchAux text.data

/-- The header-detection predicate of src/scraper.py line 124:
`'The Course' in row.get_text() and 'Grade' in row.get_text()`. -/
def rowQualifies (r : Row) : Bool :=
  pyIn "The Course" r.text && pyIn "Grade" r.text

/-- Table qualification (src/scraper.py lines 121-129): some row carries both
markers, else the table is skipped. -/
def tableQualifies (t : Table) : Bool :=
  t.rows.any rowQualifies

/-- The per-row course extraction of src/scraper.py lines 132-150: skip rows
whose flattened text contains 'The Course'; otherwise require a non-empty
`find_all('th')` and `find_all('td')`, take the first cell of each with
`get_text(strip=True)`, and keep the pair only if both are non-empty. -/
def rowCourse (r : Row) : Option Course :=
  if pyIn "The Course" r.text then none
  else
    match r.ths, r.tds with
    | th0 :: _, td0 :: _ =>
      let course_name := pyStrip th0
      let grade := pyStrip td0
      if course_name ≠ "" ∧ grade ≠ "" then some ⟨course_name, grade⟩ else none
    | _, _ => none

/-- Courses contributed by one table: nothing unless it qualifies, else the
row extraction over its rows in document order. -/
def tableCourses (t : Table) : List Course :=
  if tableQualifies t then t.rows.filterMap rowCourse else []

/-- The full course list: the table loop of src/scraper.py lines 117-150,
accumulating over all tables in document order. -/
def extractCourses (d : Document) : List Course :=
  (d.tables.map tableCourses).flatten

/-- The literal notice of the regex at src/scraper.py line 110. -/
def noticeLiteral : String := "النتيجة خاضعة لإجازة اللجنة العليا للامتحانات"

/-- Notice extraction (src/scraper.py lines 110-112): a literal-pattern
`re.search`, recording `group(0).strip()` when present. -/
def noticeOf (text : String) : Option String :=
  if pyIn noticeLiteral text then some (pyStrip noticeLiteral) else none

/-- Status extraction (src/scraper.py lines 158-161): the success marker is
checked first, then the failure marker. -/
def statusOf (text : String) : Option String :=
  if pyIn "نجاح" text then some "نجاح"
  else if pyIn "رسوب" text then some "رسوب"
  else none

/-- The `{'success': False, 'error': ...}` dict of src/scraper.py lines 33-36. -/
def connectionFailureRecord : ResultRecord :=
  [("success", PyVal.vBool false), ("error", PyVal.vStr "فشل الاتصال بموقع الجامعة.")]

/-- The login-failure dict of src/scraper.py lines 54-57 and 64-67 (same
message at both sites). -/
def loginFailureRecord : ResultRecord :=
  [("success", PyVal.vBool false),
   ("error", PyVal.vStr "فشل تسجيل الدخول. تأكد من الرقم الجامعي.")]

/-- The no-results dict of src/scraper.py lines 166-169. -/
def noResultsRecord : ResultRecord :=
  [("success", PyVal.vBool false),
   ("error", PyVal.vStr "لم يتم العثور على نتائج. قد لا تكون النتيجة متاحة بعد.")]

/-- The outer exception handler's dict (src/scraper.py lines 79-82): the
stringified exception is appended to the Arabic prefix. -/
def outerExceptionRecord (e : String) : ResultRecord :=
  [("success", PyVal.vBool false),
   ("error", PyVal.vStr ("حدث خطأ أثناء استخراج النتائج: " ++ e))]

/-- The `_parse_results` exception handler's dict (src/scraper.py lines
177-180). -/
def parseExceptionRecord (e : String) : ResultRecord :=
  [("success", PyVal.vBool false),
   ("error", PyVal.vStr ("حدث خطأ أثناء معالجة النتائج: " ++ e))]

/-- The body of `_parse_results` (src/scraper.py lines 95-171): build the
result dict in insertion order, then the terminal validation at line 165
replaces an empty result with the no-results failure dict. -/
def parseResultsBody (doc : Document) (university_number : String) : ResultRecord :=
  let text := doc.textContent
  let courses := extractCourses doc
  let gpa := gpaOf text
  if courses.isEmpty && optStrFalsy gpa then noResultsRecord
  else
    [("success", PyVal.vBool true),
     ("university_number", PyVal.vStr university_number),
     ("courses", PyVal.vCourses courses),
     ("gpa", optStr gpa),
     ("status", optStr (statusOf text)),
     ("notice", optStr (noticeOf text))]

/-- `UniversityResultsScraper._parse_results` with its own try/except
(src/scraper.py lines 84-180).  `exc` is the exception oracle: `some e` means
the parser raised with message `e`, which the handler prints to the internal
log and folds into the returned error message.  Returns (record, log lines). -/
def parse_results (doc : Document) (university_number : String) (exc : Option String) :
    ResultRecord × List String :=
  match exc with
  | some e => (parseExceptionRecord e, ["Error parsing results: " ++ e])
  | none => (parseResultsBody doc university_number, [])

/-- The mutable `requests.Session` object: `sid` is its allocation identity
(which object it is), `cookies` its cookie jar.  A lookup mutates the jar but
the code never constructs a new `Session` after `__init__`. -/
structure Session where
  sid : Nat
  cookies : List (String × String)
deriving DecidableEq, Repr

/-- Cookie-jar update on receiving a response's Set-Cookie pairs: new values
override old ones. -/
def updateCookies (old new_ : List (String × String)) : List (String × String) :=
  old.filter (fun kv => new_.all (fun kv2 => kv2.1 ≠ kv.1)) ++ new_

/-- An HTTP response as the scraper consumes it.  `text` is the body as
decoded under the declared legacy `windows-1256` encoding (the assignment at
src/scraper.py line 60); `doc` is its BeautifulSoup parse; `setCookies` the
cookies the response stores into the session's jar. -/
structure HttpResponse where
  status_code : Nat
  text : String
  doc : Document
  setCookies : List (String × String)
deriving DecidableEq, Repr

/-- The session after a response has been absorbed into the cookie jar: same
object (same `sid`), mutated jar. -/
def sessionAfter (s : Session) (r : HttpResponse) : Session :=
  { s with cookies := updateCookies s.cookies r.setCookies }

/-- The fixed portal behaviour one lookup runs against, with an exception
oracle at each site that can raise: the GET (src/scraper.py line 30), the
POST (line 45), the BeautifulSoup construction (line 71) and the body of
`_parse_results` (lines 95-171).  `Except.error e` / `some e` means that
site raised an exception whose `str` is `e`. -/
structure World where
  getResponse : Except String HttpResponse
  postResponse : Except String HttpResponse
  soupExc : Option String
  parseExc : Option String
deriving Repr

/-- The scraper object (src/scraper.py lines 9-16): portal URL, the shared
default password and the one `requests.Session` created in `__init__`. -/
structure UniversityResultsScraper where
  portal_url : String
  default_password : String
  session : Session
deriving DecidableEq, Repr

/-- `UniversityResultsScraper.__init__` (src/scraper.py lines 9-16):
`freshSid` is the allocation id of the `requests.Session()` it constructs. -/
def UniversityResultsScraper.construct (portal_url default_password : String)
    (freshSid : Nat) : UniversityResultsScraper :=
  { portal_url := portal_url, default_password := default_password,
    session := { sid := freshSid, cookies := [] } }

/-- `UniversityResultsScraper.login_and_get_results` (src/scraper.py lines
18-82).  Returns the result dict, the internal diagnostic log lines printed
by the except handlers, and the scraper as it stands after the call (its
session mutated by the responses, never replaced).  Any exception delivered
by the world is caught by the try/except at lines 75-82, except inside
`_parse_results` which has its own handler. -/
def login_and_get_results (sc : UniversityResultsScraper) (w : World)
    (university_number : String) :
    ResultRecord × List String × UniversityResultsScraper :=
  match w.getResponse with
  | Except.error e =>
    (outerExceptionRecord e, ["Error in login_and_get_results: " ++ e], sc)
  | Except.ok r1 =>
    let sc1 := { sc with session := sessionAfter sc.session r1 }
    if r1.status_code ≠ 200 then (connectionFailureRecord, [], sc1)
    else
      match w.postResponse with
      | Except.error e =>
        (outerExceptionRecord e, ["Error in login_and_get_results: " ++ e], sc1)
      | Except.ok r2 =>
        let sc2 := { sc1 with session := sessionAfter sc1.session r2 }
        if r2.status_code ≠ 200 then (loginFailureRecord, [], sc2)
        else if pyIn university_number r2.text = false then
          (loginFailureRecord, [], sc2)
        else
          match w.soupExc with
          | some e =>
            (outerExceptionRecord e, ["Error in login_and_get_results: " ++ e], sc2)
          | none =>
            let pr := parse_results r2.doc university_number w.parseExc
            (pr.1, pr.2, sc2)

/-- `UniversityResultsScraper.get_results` (src/scraper.py lines 182-192):
delegates to `login_and_get_results`. -/
def get_results (sc : UniversityResultsScraper) (w : World)
    (university_number : String) :
    ResultRecord × List String × UniversityResultsScraper :=
  login_and_get_results sc w university_number

/-- `PORTAL_URL` default from src/config.py line 11. -/
def PORTAL_URL : String := "http://212.0.143.242/portal/students"

/-- `DEFAULT_PASSWORD` default from src/config.py line 12. -/
def DEFAULT_PASSWORD : String := "123456"

/-- The module-level scraper of src/bot.py line 16: constructed once at
startup (its session gets allocation id 0) and shared by every handler call. -/
def scraper : UniversityResultsScraper :=
  UniversityResultsScraper.construct PORTAL_URL DEFAULT_PASSWORD 0

/-- The row-extraction rule transcribed from the spec's words (spec.md §4.2):
skip the header row, identified by containing the "Course" marker; a course
entry requires a header-cell (course name) and a data-cell (grade) both
present and non-empty after trimming; rows missing either are skipped. -/
def specRowEntry (r : Row) : Option Course :=
  if pyIn "The Course" r.text then none
  else
    match r.ths.head?, r.tds.head? with
    | some th0, some td0 =>
      if pyStrip th0 = "" ∨ pyStrip td0 = "" then none
      else some { name := pyStrip th0, grade := pyStrip td0 }
    | _, _ => none

/-- Fixture: a page whose one results table has a course row AND whose text
carries a GPA parenthetical, so both "courses non-empty" and "gpa present"
hold at once. -/
def docBoth : Document :=
  { tables := [{ rows := [{ text := "The Course Grade", ths := [], tds := [] },
                          { text := "", ths := ["Math"], tds := ["A"] }] }],
    textContent := "المعدل ( 3.5 )" }

/-- Fixture: a layout/navigation table none of whose rows carries the
Course/Grade markers. -/
def decoyTable : Table :=
  { rows := [{ text := "Home About Contact", ths := ["Home"], tds := ["About"] }] }

/-- Fixture: a qualifying results table with a header row and one data row. -/
def qualTable : Table :=
  { rows := [{ text := "The Course Grade", ths := [], tds := [] },
             { text := "Math A", ths := ["Math"], tds := ["A"] }] }

/-- Fixture: a successful GET followed by a POST whose page does not echo the
identifier back. -/
def worldNoEcho : World :=
  { getResponse := Except.ok { status_code := 200, text := "login page",
                               doc := { tables := [], textContent := "" },
                               setCookies := [] },
    postResponse := Except.ok { status_code := 200, text := "welcome",
                                doc := { tables := [], textContent := "" },
                                setCookies := [] },
    soupExc := none, parseExc := none }

/-- Fixture: the initial GET raises (e.g. a timeout). -/
def worldTimeout : World :=
  { getResponse := Except.error "timeout", postResponse := Except.error "unused",
    soupExc := none, parseExc := none }

/-! Theorems. -/

/-- Helper: the dict returned by a lookup does not depend on which scraper
object (session identity, cookie jar) ran it; only the world's responses and
the identifier matter. -/
theorem login_record_scraper_indep (sc sc' : UniversityResultsScraper) (w : World)
    (n : String) :
    (login_and_get_results sc w n).1 = (login_and_get_results sc' w n).1 := by
  unfold login_and_get_results
  cases w.getResponse with
  | error e => rfl
  | ok r1 =>
    dsimp only
    split
    · rfl
    · cases w.postResponse with
      | error e => rfl
      | ok r2 =>
        dsimp only
        split
        · rfl
        · split
          · rfl
          · cases w.soupExc with
            | some e => rfl
            | none => rfl

/-- Helper: a lookup never constructs a new `Session`: the session object
held by the scraper after the call is the one allocated in `__init__` (it is
mutated, never replaced). -/
theorem get_results_session_sid (sc : UniversityResultsScraper) (w : World)
    (n : String) :
    ((get_results sc w n).2.2).session.sid = sc.session.sid := by
  unfold get_results login_and_get_results
  cases w.getResponse with
  | error e => rfl
  | ok r1 =>
    dsimp only
    split
    · rfl
    · cases w.postResponse with
      | error e => rfl
      | ok r2 =>
        dsimp only
        split
        · rfl
        · split
          · rfl
          · cases w.soupExc with
            | some e => rfl
            | none => rfl

/-- C2: the claim says every lookup constructs a fresh session object and no
session object is shared between two lookups.  The code does the opposite:
`__init__` allocates the one `requests.Session` and `get_results` never
replaces it, so any two lookups through a scraper — in particular through the
single module-level scraper of src/bot.py line 16 — run on the same session
object (same allocation id, hence the same cookie jar carried from one
identifier's login to the next). -/
theorem lookups_share_one_session (sc : UniversityResultsScraper)
    (w w' : World) (n n' : String) :
    ((get_results sc w n).2.2).session.sid = sc.session.sid ∧
    ((get_results ((get_results sc w n).2.2) w' n').2.2).session.sid =
      sc.session.sid ∧
    scraper.session.sid = 0 := by
  refine ⟨get_results_session_sid sc w n, ?_, rfl⟩
  rw [get_results_session_sid ((get_results sc w n).2.2) w' n']
  exact get_results_session_sid sc w n

/-- C5: calling `get_results` twice with the same identifier against the same
fixed portal responses yields identical result dicts — the scraper state
carried between the calls (the mutated session) does not affect the output. -/
theorem lookup_idempotent (sc : UniversityResultsScraper) (w : World) (n : String) :
    (get_results ((get_results sc w n).2.2) w n).1 = (get_results sc w n).1 :=
  login_record_scraper_indep ((get_results sc w n).2.2) sc w n

/-- C3: `get_results` is a total function of the world — every exception the
world can deliver (GET, POST, BeautifulSoup, parsing) is caught inside and
converted to data: on every path the returned dict either is a success record
or carries `success = False` together with an error string. -/
theorem lookup_failures_are_data (sc : UniversityResultsScraper) (w : World)
    (n : String) :
    (getField (get_results sc w n).1 "success" = some (PyVal.vBool false) ∧
      ∃ m, getField (get_results sc w n).1 "error" = some (PyVal.vStr m)) ∨
    getField (get_results sc w n).1 "success" = some (PyVal.vBool true) := by
  unfold get_results login_and_get_results
  cases w.getResponse with
  | error e => exact Or.inl ⟨rfl, ⟨_, rfl⟩⟩
  | ok r1 =>
    dsimp only
    split
    · exact Or.inl ⟨rfl, ⟨_, rfl⟩⟩
    · cases w.postResponse with
      | error e => exact Or.inl ⟨rfl, ⟨_, rfl⟩⟩
      | ok r2 =>
        dsimp only
        split
        · exact Or.inl ⟨rfl, ⟨_, rfl⟩⟩
        · split
          · exact Or.inl ⟨rfl, ⟨_, rfl⟩⟩
          · cases w.soupExc with
            | some e => exact Or.inl ⟨rfl, ⟨_, rfl⟩⟩
            | none =>
              cases w.parseExc with
              | some e => exact Or.inl ⟨rfl, ⟨_, rfl⟩⟩
              | none =>
                unfold parse_results parseResultsBody
                dsimp only
                split
                · exact Or.inl ⟨rfl, ⟨_, rfl⟩⟩
                · exact Or.inr rfl

/-- C4: the POST's page is treated as authenticated only when its
windows-1256-decoded body echoes the identifier: whenever the POST comes back
(no exception) with a non-200 status or without the identifier substring, the
lookup returns exactly the login-failure record — a plain record, with the
login-failure message, whatever the page's tables or the parse oracle hold,
so parsing is never attempted. -/
theorem post_auth_requires_echo (sc : UniversityResultsScraper) (w : World)
    (n : String) (r1 r2 : HttpResponse)
    (hget : w.getResponse = Except.ok r1) (h200 : r1.status_code = 200)
    (hpost : w.postResponse = Except.ok r2)
    (hfail : r2.status_code ≠ 200 ∨ pyIn n r2.text = false) :
    (get_results sc w n).1 = loginFailureRecord := by
  unfold get_results login_and_get_results
  rw [hget]
  dsimp only
  rw [if_neg (by simp [h200])]
  rw [hpost]
  dsimp only
  rcases hfail with hs | hecho
  · rw [if_pos hs]
  · by_cases hs : r2.status_code = 200
    · rw [if_neg (by simp [hs]), if_pos hecho]
    · rw [if_pos hs]

/-- C4 witness: for the fixture where the GET succeeds and the POST's page
reads "welcome" without echoing 1124693617, the lookup is the login-failure
record. -/
theorem post_auth_requires_echo_witness :
    (get_results scraper worldNoEcho "1124693617").1 = loginFailureRecord :=
  post_auth_requires_echo scraper worldNoEcho "1124693617" _ _ rfl rfl rfl
    (Or.inr (by decide))

/-- C9: every dict the lookup returns with `success = False` consists of
exactly the keys `success` and `error`, in that order — identifier, courses,
gpa, status and notice are absent from failure records. -/
theorem failure_record_keys (sc : UniversityResultsScraper) (w : World) (n : String)
    (h : getField (get_results sc w n).1 "success" = some (PyVal.vBool false)) :
    ((get_results sc w n).1).map Prod.fst = ["success", "error"] := by
  unfold get_results login_and_get_results at h ⊢
  obtain ⟨gr, pr, se, pe⟩ := w
  cases gr with
  | error e => rfl
  | ok r1 =>
    dsimp only at h ⊢
    by_cases hc1 : r1.status_code ≠ 200
    · rw [if_pos hc1]
      rfl
    · rw [if_neg hc1] at h ⊢
      cases pr with
      | error e => rfl
      | ok r2 =>
        dsimp only at h ⊢
        by_cases hc2 : r2.status_code ≠ 200
        · rw [if_pos hc2]
          rfl
        · rw [if_neg hc2] at h ⊢
          by_cases hc3 : pyIn n r2.text = false
          · rw [if_pos hc3]
            rfl
          · rw [if_neg hc3] at h ⊢
            cases se with
            | some e => rfl
            | none =>
              cases pe with
              | some e => rfl
              | none =>
                unfold parse_results parseResultsBody at h ⊢
                dsimp only at h ⊢
                by_cases hc4 :
                  ((extractCourses r2.doc).isEmpty &&
                    optStrFalsy (gpaOf r2.doc.textContent)) = true
                · rw [if_pos hc4]
                  rfl
                · rw [if_neg hc4] at h ⊢
                  simp [getField] at h

/-- C9 witness: when the GET times out, the returned failure record holds the
keys success and error and nothing else. -/
theorem failure_record_keys_witness :
    ((get_results scraper worldTimeout "1124693617").1).map Prod.fst =
      ["success", "error"] :=
  failure_record_keys scraper worldTimeout "1124693617" (by decide)

/-- C6: the claim says an exception's text stays in the internal diagnostic
log and never reaches the record's error field.  In the code the except
handler of `_parse_results` (src/scraper.py lines 177-180) interpolates
`str(e)` into the returned message: for a parser exception "Boom" the
returned record's error field itself contains "Boom" (besides the log line). -/
theorem exception_text_reaches_caller :
    (parse_results { tables := [], textContent := "" } "1124693617"
        (some "Boom")).1 =
      [("success", PyVal.vBool false),
       ("error", PyVal.vStr "حدث خطأ أثناء معالجة النتائج: Boom")] ∧
    (parse_results { tables := [], textContent := "" } "1124693617"
        (some "Boom")).2 = ["Error parsing results: Boom"] ∧
    pyIn "Boom" "حدث خطأ أثناء معالجة النتائج: Boom" = true := by
  refine ⟨rfl, rfl, by decide⟩

/-- C1 counterexample: the claim requires `success = true` only when exactly
one of (courses non-empty, gpa present) holds.  On the fixture page with both
a course row and a GPA parenthetical, the code returns `success = true`
although both hold at once, so the exactly-one reading is false. -/
theorem success_with_both_courses_and_gpa :
    getField (parse_results docBoth "1124693617" none).1 "success" =
      some (PyVal.vBool true) ∧
    extractCourses docBoth ≠ [] ∧ gpaOf docBoth.textContent ≠ none := by
  decide

/-- C1 amended: for every parsed page, `success = true` holds exactly when at
least one of (courses non-empty, gpa truthy) holds; when neither holds the
returned dict is the no-results failure record ("no results available yet"). -/
theorem success_iff_courses_or_gpa (doc : Document) (n : String) :
    (getField (parse_results doc n none).1 "success" = some (PyVal.vBool true) ↔
      (extractCourses doc ≠ [] ∨ optStrFalsy (gpaOf doc.textContent) = false)) ∧
    (extractCourses doc = [] ∧ optStrFalsy (gpaOf doc.textContent) = true →
      (parse_results doc n none).1 = noResultsRecord) := by
  unfold parse_results parseResultsBody
  dsimp only
  by_cases hc : ((extractCourses doc).isEmpty &&
      optStrFalsy (gpaOf doc.textContent)) = true
  · rw [if_pos hc]
    simp only [Bool.and_eq_true, List.isEmpty_iff] at hc
    obtain ⟨h1, h2⟩ := hc
    refine ⟨?_, fun _ => rfl⟩
    constructor
    · intro h
      exact absurd h (by decide)
    · intro h
      rcases h with h | h
      · exact absurd h1 h
      · rw [h2] at h
        exact absurd h (by decide)
  · rw [if_neg hc]
    simp only [Bool.and_eq_true, List.isEmpty_iff, not_and_or,
      Bool.not_eq_true] at hc
    refine ⟨⟨fun _ => hc, fun _ => rfl⟩, ?_⟩
    rintro ⟨h1, h2⟩
    rcases hc with h | h
    · exact absurd h1 h
    · rw [h2] at h
      exact absurd h (by decide)

/-- C1 amended witness: the amended equivalence instantiated at the fixture
page that has both courses and a GPA. -/
theorem success_iff_courses_or_gpa_witness :
    (getField (parse_results docBoth "1124693617" none).1 "success" =
        some (PyVal.vBool true) ↔
      (extractCourses docBoth ≠ [] ∨
        optStrFalsy (gpaOf docBoth.textContent) = false)) ∧
    (extractCourses docBoth = [] ∧
        optStrFalsy (gpaOf docBoth.textContent) = true →
      (parse_results docBoth "1124693617" none).1 = noResultsRecord) :=
  success_iff_courses_or_gpa docBoth "1124693617"

/-- Helper: a table none of whose rows carries both the "The Course" and
"Grade" markers never qualifies. -/
theorem unmarked_table_not_qualifying (t : Table)
    (hall : ∀ r ∈ t.rows, rowQualifies r = false) : tableQualifies t = false := by
  rw [tableQualifies, List.any_eq_false]
  intro r hr
  simp [hall r hr]

/-- C7: a table contributes course rows only if some row's flattened text
contains both the English "The Course" marker and the "Grade" marker (first
conjunct specialised to a decoy + qualifying document: only the qualifying
table's rows reach the course list; second conjunct: any unmarked table in
any document contributes nothing). -/
theorem only_qualifying_tables_contribute (txt : String) (decoy qual : Table)
    (hd : ∀ r ∈ decoy.rows, rowQualifies r = false)
    (hq : ∃ r ∈ qual.rows, rowQualifies r = true) :
    extractCourses { tables := [decoy, qual], textContent := txt } =
      qual.rows.filterMap rowCourse ∧
    ∀ (d : Document), ∀ t ∈ d.tables,
      (∀ r ∈ t.rows, rowQualifies r = false) → tableCourses t = [] := by
  constructor
  · have hdq : tableQualifies decoy = false := unmarked_table_not_qualifying decoy hd
    have hqq : tableQualifies qual = true := by
      rw [tableQualifies, List.any_eq_true]
      obtain ⟨r, hr, h⟩ := hq
      exact ⟨r, hr, h⟩
    simp [extractCourses, tableCourses, hdq, hqq]
  · intro d t ht hall
    simp [tableCourses, unmarked_table_not_qualifying t hall]

/-- C7 witness: on the concrete two-table page the decoy contributes nothing
and the course list is exactly the qualifying table's data row. -/
theorem only_qualifying_tables_contribute_witness :
    extractCourses { tables := [decoyTable, qualTable], textContent := "" } =
      qualTable.rows.filterMap rowCourse ∧
    extractCourses { tables := [decoyTable, qualTable], textContent := "" } =
      [{ name := "Math", grade := "A" }] :=
  ⟨(only_qualifying_tables_contribute "" decoyTable qualTable (by decide)
      (by decide)).1,
   by decide⟩

/-- Helper: the code's per-row extraction coincides with the spec's wording
of the rule (skip header rows; need the course-name cell and the grade cell
both present and non-empty after stripping). -/
theorem rowCourse_eq_specRowEntry (r : Row) : rowCourse r = specRowEntry r := by
  obtain ⟨tx, ths, tds⟩ := r
  unfold rowCourse specRowEntry
  dsimp only
  split
  · rfl
  · cases ths with
    | nil => rfl
    | cons th0 t1 =>
      cases tds with
      | nil => rfl
      | cons td0 t2 =>
        dsimp only [List.head?]
        by_cases h1 : pyStrip th0 = "" <;> by_cases h2 : pyStrip td0 = "" <;>
          simp [h1, h2]

/-- C8: within a qualifying table the extracted courses are exactly the
document-ordered filterMap of the spec's row rule: header rows (containing
"The Course") are skipped, a remaining row yields an entry exactly when its
course-name cell and grade cell are present and non-empty after stripping,
and rows missing either are skipped without error. -/
theorem qualifying_table_rows (t : Table) (hq : tableQualifies t = true) :
    tableCourses t = t.rows.filterMap specRowEntry := by
  unfold tableCourses
  rw [if_pos hq, show rowCourse = specRowEntry from funext rowCourse_eq_specRowEntry]

/-- C8 witness: the concrete qualifying table's courses follow the spec rule
and evaluate to its one data row. -/
theorem qualifying_table_rows_witness :
    tableCourses qualTable = qualTable.rows.filterMap specRowEntry ∧
    tableCourses qualTable = [{ name := "Math", grade := "A" }] :=
  ⟨qualifying_table_rows qualTable (by decide), by decide⟩

/-- Helper: a successful label match captures a non-empty run of `[\d.]`
characters. -/
theorem matchGpaAfterLabel_chars (cs : List Char) (g : String)
    (h : matchGpaAfterLabel cs = some g) :
    g ≠ "" ∧ ∀ c ∈ g.data, isGpaChar c = true := by
  unfold matchGpaAfterLabel at h
  split at h
  case _ c2 cs2 heq =>
    dsimp only at h
    split at h
    case _ d ds rest heqt heqr =>
      injection h with h
      subst h
      refine ⟨by simp [String.ext_iff], ?_⟩
      intro c hc
      have hmem : c ∈ (cs2.dropWhile Char.isWhitespace).takeWhile isGpaChar := by
        rw [heqt]
        exact hc
      exact List.mem_takeWhile_imp hmem
    case _ => exact absurd h (by simp)
  case _ => exact absurd h (by simp)

/-- Helper: the same for a full single-position match attempt. -/
theorem matchGpaAt_chars (cs : List Char) (g : String)
    (h : matchGpaAt cs = some g) :
    g ≠ "" ∧ ∀ c ∈ g.data, isGpaChar c = true := by
  unfold matchGpaAt at h
  split at h
  · exact matchGpaAfterLabel_chars _ _ h
  · exact absurd h (by simp)

/-- Helper: the scan returns the match at the leftmost matching start
position — every earlier position fails. -/
theorem gpaSearchAux_first (cs : List Char) (g : String)
    (h : gpaSearchAux cs = some g) :
    ∃ i, matchGpaAt (cs.drop i) = some g ∧
      ∀ j < i, matchGpaAt (cs.drop j) = none := by
  induction cs with
  | nil => exact absurd h (by simp [gpaSearchAux])
  | cons c cs ih =>
    unfold gpaSearchAux at h
    cases hm : matchGpaAt (c :: cs) with
    | some g2 =>
      rw [hm] at h
      dsimp only at h
      injection h with h
      subst h
      exact ⟨0, hm, by omega⟩
    | none =>
      rw [hm] at h
      dsimp only at h
      obtain ⟨i, h1, h2⟩ := ih h
      refine ⟨i + 1, h1, ?_⟩
      intro j hj
      cases j with
      | zero => exact hm
      | succ k => exact h2 k (by omega)

/-- C10: whenever a gpa token is extracted it is captured at the first
(leftmost) position of the document text where the GPA pattern matches, it is
non-empty, and it consists only of digit and period characters — but nothing
guarantees it contains a digit: a token of periods alone is accepted, as the
final conjunct exhibits. -/
theorem gpa_token_shape (txt g : String) (hg : gpaOf txt = some g) :
    g ≠ "" ∧ (∀ c ∈ g.data, c.isDigit = true ∨ c = '.') ∧
    (∃ i, matchGpaAt (txt.data.drop i) = some g ∧
      ∀ j < i, matchGpaAt (txt.data.drop j) = none) ∧
    (∃ t u, gpaOf t = some u ∧ u ≠ "" ∧ ∀ c ∈ u.data, c = '.') := by
  obtain ⟨i, h1, h2⟩ := gpaSearchAux_first txt.data g hg
  obtain ⟨hne, hchars⟩ := matchGpaAt_chars _ _ h1
  refine ⟨hne, ?_, ⟨i, h1, h2⟩,
    ⟨"المعدل (..)", "..", by decide, by decide, by decide⟩⟩
  intro c hc
  have h3 := hchars c hc
  simp only [isGpaChar, Bool.or_eq_true, beq_iff_eq] at h3
  exact h3

/-- C10 witness: the shape theorem instantiated at a concrete page text whose
GPA parenthetical is ( 3.5 ). -/
theorem gpa_token_shape_witness :
    gpaOf "المعدل ( 3.5 )" = some "3.5" ∧
    (("3.5" : String) ≠ "" ∧
      (∀ c ∈ ("3.5" : String).data, c.isDigit = true ∨ c = '.') ∧
      (∃ i, matchGpaAt (("المعدل ( 3.5 )" : String).data.drop i) = some "3.5" ∧
        ∀ j < i, matchGpaAt (("المعدل ( 3.5 )" : String).data.drop j) = none) ∧
      (∃ t u, gpaOf t = some u ∧ u ≠ "" ∧ ∀ c ∈ u.data, c = '.')) :=
  ⟨by decide, gpa_token_shape "المعدل ( 3.5 )" "3.5" (by decide)⟩
